import Mathlib

set_option maxRecDepth 8192

/-! Verification of the Discordian date converter of Celti/ddate
(src/lib.rs): the `DiscordianDate::to_poee` conversion, its constant
tables, and the `ordinalize` helper, embedded shallowly and checked
against the design document's claims. -/

/-- The apostolic holydays of the Discordian calendar (`APOSTLES`). -/
def APOSTLES : List String := ["Mungday", "Mojoday", "Syaday", "Zaraday", "Maladay"]

/-- The seasonal holydays of the Discordian calendar (`HOLYDAYS`). -/
def HOLYDAYS : List String := ["Chaoflux", "Discoflux", "Confuflux", "Bureflux", "Afflux"]

/-- The seasons of the Discordian calendar (`SEASONS`). -/
def SEASONS : List String := ["Chaos", "Discord", "Confusion", "Bureaucracy", "The Aftermath"]

/-- The days of the Discordian week (`WEEKDAYS`). -/
def WEEKDAYS : List String := ["Sweetmorn", "Boomtime", "Pungenday", "Prickle-Prickle", "Setting Orange"]

/-- The day of the season that an apostolic holyday occurs on. -/
def APOSTLE_HOLYDAY : Nat := 5

/-- The day of the year that St. Tib's Day occurs on (in leap years). -/
def ST_TIBS_DAY : Nat := 59

/-- The number of days in each season. -/
def SEASON_DAYS : Nat := 73

/-- The day of the season that a seasonal holyday occurs on. -/
def SEASON_HOLYDAY : Nat := 50

/-- The number of days in each week. -/
def WEEK_DAYS : Nat := 5

/-- The Curse of Greyface occurred in 1166 B.C.E. -/
def CURSE_OF_GREYFACE : Int := 1166

/-- Rust's `str::ends_with` with a string pattern: the pattern's characters
are a suffix of the subject's characters (on valid UTF-8, byte suffix and
character suffix coincide, so this is the Rust semantics). -/
def ends_with (s pat : String) : Bool := decide (pat.data <:+ s.data)

/-- `ordinalize` (src/lib.rs): render a numeral in decimal with its English
ordinal suffix, the suffix chosen from how the decimal string ends. -/
def ordinalize (num : Nat) : String :=
  let s := toString num
  let suffix :=
    if ends_with s "1" && !ends_with s "11" then "st"
    else if ends_with s "2" && !ends_with s "12" then "nd"
    else if ends_with s "3" && !ends_with s "13" then "rd"
    else "th"
  s ++ suffix

/-- The leap-year test computed inside `to_poee` from the date's own year:
`self.year() % 4 == 0 && self.year() % 100 != 0 || self.year() % 400 == 0`.
Rust's `%` on `i32` is the truncating remainder, i.e. `Int.tmod`. -/
def isLeap (year : Int) : Bool :=
  Int.tmod year 4 == 0 && Int.tmod year 100 != 0 || Int.tmod year 400 == 0

/-- The `day_offset` local of `to_poee`: in a leap year, a day strictly after
St. Tib's Day is shifted down by one. -/
def day_offset (year : Int) (day : Nat) : Nat :=
  if isLeap year && decide (ST_TIBS_DAY < day) then day - 1 else day

/-- The `day_of_season` local of `to_poee`: `day_offset % SEASON_DAYS + 1`. -/
def day_of_season (year : Int) (day : Nat) : Nat :=
  day_offset year day % SEASON_DAYS + 1

/-- The season index `day_offset / SEASON_DAYS` with which `to_poee` indexes
`SEASONS`, `APOSTLES` and `HOLYDAYS`. -/
def season_index (year : Int) (day : Nat) : Nat :=
  day_offset year day / SEASON_DAYS

/-- The weekday index `day_offset % WEEK_DAYS` with which `to_poee` indexes
`WEEKDAYS`. -/
def weekday_index (year : Int) (day : Nat) : Nat :=
  day_offset year day % WEEK_DAYS

/-- The `holiday` local of `to_poee`: the optional annotation appended for an
apostolic (5th) or seasonal (50th) day of a season. Rust's array indexing
panics when out of bounds; the embedding yields `none` there. -/
def holiday (year : Int) (day : Nat) : Option String :=
  if day_of_season year day == APOSTLE_HOLYDAY then
    (APOSTLES.get? (season_index year day)).map (fun a => "\nCelebrate " ++ a)
  else if day_of_season year day == SEASON_HOLYDAY then
    (HOLYDAYS.get? (season_index year day)).map (fun h => "\nCelebrate " ++ h)
  else
    some ""

/-- `DiscordianDate::to_poee` (src/lib.rs), as a function of the only two
`Datelike` fields it reads: the year and the zero-based ordinal day of the
year. Rust's panicking array indexing is modelled by `Option`: a `none`
result is a panic. -/
def to_poee (year : Int) (day : Nat) : Option String :=
  if isLeap year && day == ST_TIBS_DAY then
    some ("St. Tib's Day, in the YOLD " ++ toString (year + CURSE_OF_GREYFACE))
  else
    (SEASONS.get? (season_index year day)).bind fun season =>
      (WEEKDAYS.get? (weekday_index year day)).bind fun weekday =>
        (holiday year day).map fun holy =>
          weekday ++ ", the " ++ ordinalize (day_of_season year day) ++ " day of "
            ++ season ++ " in the YOLD " ++ toString (year + CURSE_OF_GREYFACE) ++ holy

/-- The holyday annotation as a total string: the value `holiday` wraps in
`some` whenever the season index is in bounds. -/
def holiday_string (year : Int) (day : Nat) : String :=
  if day_of_season year day = APOSTLE_HOLYDAY then
    "\nCelebrate " ++ APOSTLES.getD (season_index year day) ""
  else if day_of_season year day = SEASON_HOLYDAY then
    "\nCelebrate " ++ HOLYDAYS.getD (season_index year day) ""
  else ""

/-- The decimal digits of a natural number, most significant first: the
reference shape for reasoning about `Nat.repr`. -/
def natDigits (n : Nat) : List Char :=
  if _h : n < 10 then [Nat.digitChar n]
  else natDigits (n / 10) ++ [Nat.digitChar (n % 10)]
termination_by n
decreasing_by omega

/-- The numeric-modulo ordinal-suffix rule, written from the claim under
refinement: the suffix chosen from `n % 10` and `n % 100` instead of from
the decimal string. -/
def ordinalize_by_mod (n : Nat) : String :=
  toString n ++
    (if n % 10 = 1 ∧ n % 100 ≠ 11 then "st"
     else if n % 10 = 2 ∧ n % 100 ≠ 12 then "nd"
     else if n % 10 = 3 ∧ n % 100 ≠ 13 then "rd"
     else "th")

/-! ### Helper lemmas: list lookups, `day_offset` arithmetic, and the
format of a non-leap-day result -/

/-- Looking up `SEASONS` within bounds yields its `getD` value. -/
theorem SEASONS_get?_eq (i : Nat) (h : i < 5) :
    SEASONS.get? i = some (SEASONS.getD i "") := by
  interval_cases i <;> rfl

/-- Looking up `WEEKDAYS` within bounds yields its `getD` value. -/
theorem WEEKDAYS_get?_eq (i : Nat) (h : i < 5) :
    WEEKDAYS.get? i = some (WEEKDAYS.getD i "") := by
  interval_cases i <;> rfl

/-- Looking up `APOSTLES` within bounds yields its `getD` value. -/
theorem APOSTLES_get?_eq (i : Nat) (h : i < 5) :
    APOSTLES.get? i = some (APOSTLES.getD i "") := by
  interval_cases i <;> rfl

/-- Looking up `HOLYDAYS` within bounds yields its `getD` value. -/
theorem HOLYDAYS_get?_eq (i : Nat) (h : i < 5) :
    HOLYDAYS.get? i = some (HOLYDAYS.getD i "") := by
  interval_cases i <;> rfl

/-- In a non-leap year the day offset is the ordinal day itself. -/
theorem day_offset_of_not_leap {year : Int} (h : isLeap year = false) (day : Nat) :
    day_offset year day = day := by
  simp [day_offset, h]

/-- In a leap year, a day after St. Tib's Day is shifted down by one. -/
theorem day_offset_of_leap_gt {year : Int} (h : isLeap year = true) {day : Nat}
    (hd : ST_TIBS_DAY < day) : day_offset year day = day - 1 := by
  simp [day_offset, h, hd]

/-- Up to and including St. Tib's Day the offset is the day itself, leap or not. -/
theorem day_offset_of_le {year : Int} {day : Nat} (hd : day ≤ ST_TIBS_DAY) :
    day_offset year day = day := by
  have h : ¬(ST_TIBS_DAY < day) := by omega
  simp [day_offset, h]

/-- A day in the valid range for its year has offset below 365. -/
theorem day_offset_lt {year : Int} {day : Nat}
    (h : day < 365 + (if isLeap year = true then 1 else 0)) :
    day_offset year day < 365 := by
  have h59 : ST_TIBS_DAY = 59 := rfl
  cases hl : isLeap year
  · rw [day_offset_of_not_leap hl]
    simpa [hl] using h
  · simp only [hl, if_true] at h
    by_cases hgt : ST_TIBS_DAY < day
    · rw [day_offset_of_leap_gt hl hgt]; omega
    · rw [day_offset_of_le (by omega)]; omega

/-- With the season index in bounds, `holiday` yields `holiday_string`. -/
theorem holiday_eq_some {year : Int} {day : Nat} (h : season_index year day < 5) :
    holiday year day = some (holiday_string year day) := by
  rw [holiday, holiday_string]
  by_cases h5 : day_of_season year day = APOSTLE_HOLYDAY
  · rw [if_pos (show (day_of_season year day == APOSTLE_HOLYDAY) = true by simp [h5]),
      if_pos h5, APOSTLES_get?_eq _ h]
    rfl
  · rw [if_neg (show ¬(day_of_season year day == APOSTLE_HOLYDAY) = true by simp [h5]),
      if_neg h5]
    by_cases h50 : day_of_season year day = SEASON_HOLYDAY
    · rw [if_pos (show (day_of_season year day == SEASON_HOLYDAY) = true by simp [h50]),
        if_pos h50, HOLYDAYS_get?_eq _ h]
      rfl
    · rw [if_neg (show ¬(day_of_season year day == SEASON_HOLYDAY) = true by simp [h50]),
        if_neg h50]

/-- Off St. Tib's Day, `to_poee` takes the table-lookup path. -/
theorem to_poee_not_tibs {year : Int} {day : Nat}
    (htibs : ¬(isLeap year = true ∧ day = ST_TIBS_DAY)) :
    to_poee year day =
      (SEASONS.get? (season_index year day)).bind fun season =>
        (WEEKDAYS.get? (weekday_index year day)).bind fun weekday =>
          (holiday year day).map fun holy =>
            weekday ++ ", the " ++ ordinalize (day_of_season year day) ++ " day of "
              ++ season ++ " in the YOLD " ++ toString (year + CURSE_OF_GREYFACE) ++ holy := by
  have hc : ¬((isLeap year && day == ST_TIBS_DAY) = true) := by
    simp only [Bool.and_eq_true, beq_iff_eq]
    exact htibs
  rw [to_poee, if_neg hc]

/-- On a leap year's St. Tib's Day, `to_poee` returns the literal form. -/
theorem to_poee_tibs {year : Int} (h : isLeap year = true) :
    to_poee year 59 =
      some ("St. Tib's Day, in the YOLD " ++ toString (year + CURSE_OF_GREYFACE)) := by
  rw [to_poee, if_pos (by rw [h]; rfl)]

/-- The master format equation: off St. Tib's Day and with the offset in
range, `to_poee` produces exactly the formatted string. -/
theorem to_poee_format {year : Int} {day : Nat}
    (htibs : ¬(isLeap year = true ∧ day = ST_TIBS_DAY))
    (hoff : day_offset year day < 365) :
    to_poee year day = some (WEEKDAYS.getD (weekday_index year day) "" ++ ", the "
      ++ ordinalize (day_of_season year day) ++ " day of "
      ++ SEASONS.getD (season_index year day) "" ++ " in the YOLD "
      ++ toString (year + CURSE_OF_GREYFACE) ++ holiday_string year day) := by
  have hsi : season_index year day < 5 := by
    rw [season_index, show SEASON_DAYS = 73 from rfl]; omega
  have hwi : weekday_index year day < 5 := by
    rw [weekday_index, show WEEK_DAYS = 5 from rfl]; omega
  rw [to_poee_not_tibs htibs, SEASONS_get?_eq _ hsi, WEEKDAYS_get?_eq _ hwi,
    holiday_eq_some hsi]
  rfl

/-! ### Decimal-string lemmas: `toString` on `Nat` unfolds to `natDigits`,
and suffixes of `natDigits` are the low-order digits -/

/-- `Nat.toDigitsCore` with enough fuel computes `natDigits` onto the
accumulator. -/
theorem toDigitsCore_eq_natDigits (fuel : Nat) :
    ∀ (n : Nat) (ds : List Char), n < fuel →
      Nat.toDigitsCore 10 fuel n ds = natDigits n ++ ds := by
  induction fuel with
  | zero => intro n ds h; omega
  | succ fuel ih =>
    intro n ds h
    rw [Nat.toDigitsCore]
    by_cases h10 : n / 10 = 0
    · rw [if_pos h10, natDigits, dif_pos (by omega)]
      rw [Nat.mod_eq_of_lt (by omega)]
      rfl
    · rw [if_neg h10, ih (n / 10) (Nat.digitChar (n % 10) :: ds) (by omega)]
      conv_rhs => rw [natDigits]
      rw [dif_neg (show ¬n < 10 by omega)]
      simp [List.append_assoc]

/-- The characters of `toString n` are the decimal digits of `n`. -/
theorem toString_data_eq_natDigits (n : Nat) : (toString n).data = natDigits n := by
  show (Nat.toDigits 10 n).asString.data = natDigits n
  rw [Nat.toDigits, toDigitsCore_eq_natDigits (n + 1) n [] (Nat.lt_succ_self n)]
  simp [List.asString]

/-- A one-element suffix of `l ++ [a]` is exactly `[a]`. -/
theorem singleton_suffix_concat (l : List Char) (a c : Char) :
    [c] <:+ l ++ [a] ↔ c = a := by
  constructor
  · rintro ⟨t, ht⟩
    have h := (List.append_inj' ht rfl).2
    simpa using h
  · rintro rfl
    exact ⟨l, rfl⟩

/-- A two-element suffix of `l ++ [a]` ends in `a` and its head closes `l`. -/
theorem pair_suffix_concat (l : List Char) (a c₁ c₂ : Char) :
    [c₁, c₂] <:+ l ++ [a] ↔ c₂ = a ∧ [c₁] <:+ l := by
  constructor
  · rintro ⟨t, ht⟩
    have h2 : (t ++ [c₁]) ++ [c₂] = l ++ [a] := by simpa using ht
    obtain ⟨h3, h4⟩ := List.append_inj' h2 rfl
    exact ⟨by simpa using h4, ⟨t, h3⟩⟩
  · rintro ⟨rfl, t, rfl⟩
    exact ⟨t, by simp⟩

/-- The last decimal digit of `n` is `n % 10`. -/
theorem suffix_natDigits_one (n : Nat) (c : Char) :
    [c] <:+ natDigits n ↔ c = Nat.digitChar (n % 10) := by
  rw [natDigits]
  split
  · rename_i h
    rw [Nat.mod_eq_of_lt h]
    simp [List.suffix_cons_iff]
  · exact singleton_suffix_concat _ _ _

/-- The last two decimal digits of `n` are `n / 10 % 10` and `n % 10`, and a
two-digit suffix needs `n ≥ 10`. -/
theorem suffix_natDigits_two (n : Nat) (c₁ c₂ : Char) :
    [c₁, c₂] <:+ natDigits n ↔
      10 ≤ n ∧ c₁ = Nat.digitChar (n / 10 % 10) ∧ c₂ = Nat.digitChar (n % 10) := by
  rw [natDigits]
  split
  · rename_i h
    constructor
    · intro hs
      exact absurd hs.length_le (by simp)
    · rintro ⟨h10, -, -⟩
      omega
  · rename_i h
    rw [pair_suffix_concat, suffix_natDigits_one]
    constructor
    · rintro ⟨h1, h2⟩
      exact ⟨by omega, h2, h1⟩
    · rintro ⟨-, h1, h2⟩
      exact ⟨h2, h1⟩

/-- `Nat.digitChar` is injective on single digits. -/
theorem digitChar_inj_lt (m d : Nat) (hm : m < 10) (hd : d < 10) :
    Nat.digitChar m = Nat.digitChar d ↔ m = d := by
  interval_cases m <;> interval_cases d <;> decide

/-- The decimal string of `n` ends in the digit `d` iff `n % 10 = d`. -/
theorem ends_with_digit (n d : Nat) (hd : d < 10) :
    ends_with (toString n) (String.mk [Nat.digitChar d]) = true ↔ n % 10 = d := by
  rw [ends_with, decide_eq_true_eq, toString_data_eq_natDigits]
  show [Nat.digitChar d] <:+ natDigits n ↔ n % 10 = d
  rw [suffix_natDigits_one, digitChar_inj_lt d (n % 10) hd (Nat.mod_lt _ (by omega))]
  exact eq_comm

/-- The decimal string of `n` ends in the digits `d₁ d₂` iff `n % 100` is
the two-digit number `d₁ d₂` (which forces `n ≥ 10`). -/
theorem ends_with_two_digits (n d₁ d₂ : Nat) (h₁ : d₁ < 10) (h₂ : d₂ < 10) :
    ends_with (toString n) (String.mk [Nat.digitChar d₁, Nat.digitChar d₂]) = true ↔
      10 ≤ n ∧ n % 100 = 10 * d₁ + d₂ := by
  rw [ends_with, decide_eq_true_eq, toString_data_eq_natDigits]
  show [Nat.digitChar d₁, Nat.digitChar d₂] <:+ natDigits n ↔ _
  rw [suffix_natDigits_two,
    digitChar_inj_lt d₁ (n / 10 % 10) h₁ (Nat.mod_lt _ (by omega)),
    digitChar_inj_lt d₂ (n % 10) h₂ (Nat.mod_lt _ (by omega))]
  omega

/-! ### The claims -/

/-- C1: for every non-leap-day input with the ordinal day in valid range,
`to_poee` returns exactly `"{weekday}, the {ordinalized day_of_season} day
of {season} in the YOLD {discordian_year}{annotation}"`, where the day
offset is the ordinal day minus 1 when the year is leap and the day
exceeds 59 (else unchanged), the season is `SEASONS[day_offset / 73]`, the
day of season is `day_offset % 73 + 1`, the weekday is
`WEEKDAYS[day_offset % 5]`, and the Discordian year is `year + 1166`. -/
theorem C1_to_poee_format (year : Int) (day : Nat)
    (hrange : day < 365 + (if isLeap year = true then 1 else 0))
    (htibs : ¬(isLeap year = true ∧ day = 59)) :
    day_offset year day = (if isLeap year = true ∧ 59 < day then day - 1 else day) ∧
    to_poee year day = some (WEEKDAYS.getD (day_offset year day % 5) "" ++ ", the "
      ++ ordinalize (day_offset year day % 73 + 1) ++ " day of "
      ++ SEASONS.getD (day_offset year day / 73) "" ++ " in the YOLD "
      ++ toString (year + 1166) ++ holiday_string year day) := by
  constructor
  · cases hl : isLeap year <;> by_cases hgt : 59 < day <;>
      simp [day_offset, hl, hgt, ST_TIBS_DAY]
  · exact to_poee_format htibs (day_offset_lt hrange)

/-- Witness for C1 at `(2017, 296)`, the Maladay example. -/
theorem C1_to_poee_format_witness :
    ((296 : Nat) < 365 + (if isLeap 2017 = true then 1 else 0)) ∧
    ¬(isLeap 2017 = true ∧ (296 : Nat) = 59) ∧
    (day_offset 2017 296 = (if isLeap 2017 = true ∧ 59 < (296 : Nat) then 296 - 1 else 296) ∧
      to_poee 2017 296 = some (WEEKDAYS.getD (day_offset 2017 296 % 5) "" ++ ", the "
        ++ ordinalize (day_offset 2017 296 % 73 + 1) ++ " day of "
        ++ SEASONS.getD (day_offset 2017 296 / 73) "" ++ " in the YOLD "
        ++ toString ((2017 : Int) + 1166) ++ holiday_string 2017 296)) ∧
    to_poee 2017 296 =
      some "Boomtime, the 5th day of The Aftermath in the YOLD 3183\nCelebrate Maladay" :=
  ⟨by decide, by decide, C1_to_poee_format 2017 296 (by decide) (by decide), by decide⟩

/-- C2: for every leap year, `to_poee` at ordinal day 59 returns exactly
the literal `"St. Tib's Day, in the YOLD {year + 1166}"`, with no weekday,
season, day-of-season or holyday annotation: the terminal case. -/
theorem C2_st_tibs (year : Int) (h : isLeap year = true) :
    to_poee year 59 = some ("St. Tib's Day, in the YOLD " ++ toString (year + 1166)) :=
  to_poee_tibs h

/-- Witness for C2 at leap year 2000. -/
theorem C2_st_tibs_witness :
    isLeap 2000 = true ∧
    to_poee 2000 59 = some ("St. Tib's Day, in the YOLD " ++ toString ((2000 : Int) + 1166)) ∧
    to_poee 2000 59 = some "St. Tib's Day, in the YOLD 3166" :=
  ⟨by decide, C2_st_tibs 2000 (by decide), by decide⟩

/-- C3: in a leap year, every day after St. Tib's Day maps to the same
season, day-of-season (also after ordinalizing) and weekday as the
previous ordinal day in a non-leap year, and day 58 has the same offset
under both flags. -/
theorem C3_leap_shift (y y' : Int) (day : Nat)
    (hy : isLeap y = true) (hy' : isLeap y' = false) (hday : 59 < day) :
    season_index y day = season_index y' (day - 1) ∧
    day_of_season y day = day_of_season y' (day - 1) ∧
    weekday_index y day = weekday_index y' (day - 1) ∧
    ordinalize (day_of_season y day) = ordinalize (day_of_season y' (day - 1)) ∧
    day_offset y 58 = 58 ∧ day_offset y' 58 = 58 := by
  have h1 : day_offset y day = day - 1 := day_offset_of_leap_gt hy hday
  have h2 : day_offset y' (day - 1) = day - 1 := day_offset_of_not_leap hy' _
  have h58 : (58 : Nat) ≤ ST_TIBS_DAY := by rw [show ST_TIBS_DAY = 59 from rfl]; omega
  exact ⟨by rw [season_index, season_index, h1, h2],
    by rw [day_of_season, day_of_season, h1, h2],
    by rw [weekday_index, weekday_index, h1, h2],
    by rw [day_of_season, day_of_season, h1, h2],
    day_offset_of_le h58, day_offset_of_le h58⟩

/-- Witness for C3: day 60 of leap year 2000 against day 59 of non-leap
year 2017. -/
theorem C3_leap_shift_witness :
    isLeap 2000 = true ∧ isLeap 2017 = false ∧ (59 : Nat) < 60 ∧
    (season_index 2000 60 = season_index 2017 (60 - 1) ∧
      day_of_season 2000 60 = day_of_season 2017 (60 - 1) ∧
      weekday_index 2000 60 = weekday_index 2017 (60 - 1) ∧
      ordinalize (day_of_season 2000 60) = ordinalize (day_of_season 2017 (60 - 1)) ∧
      day_offset 2000 58 = 58 ∧ day_offset 2017 58 = 58) ∧
    to_poee 2000 60 = some "Setting Orange, the 60th day of Chaos in the YOLD 3166" :=
  ⟨by decide, by decide, by decide,
    C3_leap_shift 2000 2017 60 (by decide) (by decide) (by decide), by decide⟩

/-- C7: with the ordinal day in the valid range for its year, every index
`to_poee` computes is in bounds — season index 0–4, weekday index 0–4,
day-of-season 1–73 — so no table lookup fails and the conversion returns
`some` (it cannot panic). -/
theorem C7_no_panic (year : Int) (day : Nat)
    (hrange : day < 365 + (if isLeap year = true then 1 else 0)) :
    season_index year day ≤ 4 ∧ weekday_index year day ≤ 4 ∧
    1 ≤ day_of_season year day ∧ day_of_season year day ≤ 73 ∧
    (to_poee year day).isSome = true := by
  have hoff := day_offset_lt hrange
  refine ⟨?_, ?_, ?_, ?_, ?_⟩
  · rw [season_index, show SEASON_DAYS = 73 from rfl]; omega
  · rw [weekday_index, show WEEK_DAYS = 5 from rfl]; omega
  · rw [day_of_season, show SEASON_DAYS = 73 from rfl]; omega
  · rw [day_of_season, show SEASON_DAYS = 73 from rfl]; omega
  · by_cases htibs : isLeap year = true ∧ day = ST_TIBS_DAY
    · rw [to_poee, if_pos (by rw [htibs.1, htibs.2]; rfl)]
      rfl
    · rw [to_poee_format htibs hoff]
      rfl

/-- Witness for C7 at `(2000, 365)`, the last day of a leap year. -/
theorem C7_no_panic_witness :
    ((365 : Nat) < 365 + (if isLeap 2000 = true then 1 else 0)) ∧
    (season_index 2000 365 ≤ 4 ∧ weekday_index 2000 365 ≤ 4 ∧
      1 ≤ day_of_season 2000 365 ∧ day_of_season 2000 365 ≤ 73 ∧
      (to_poee 2000 365).isSome = true) ∧
    to_poee 2000 365 = some "Setting Orange, the 73rd day of The Aftermath in the YOLD 3166" :=
  ⟨by decide, C7_no_panic 2000 365 (by decide), by decide⟩

/-- C8: the Discordian year printed is `year + 1166` for every integer
year — zero and negative astronomical years included, with no bound
enforced — and Gregorian year −1166 at day 0 yields exactly
"Sweetmorn, the 1st day of Chaos in the YOLD 0". -/
theorem C8_discordian_year (year : Int) (day : Nat)
    (hrange : day < 365 + (if isLeap year = true then 1 else 0)) :
    (∃ pre post : String,
      to_poee year day = some (pre ++ toString (year + 1166) ++ post)) ∧
    to_poee (-1166) 0 = some "Sweetmorn, the 1st day of Chaos in the YOLD 0" := by
  constructor
  · by_cases htibs : isLeap year = true ∧ day = ST_TIBS_DAY
    · refine ⟨"St. Tib's Day, in the YOLD ", "", ?_⟩
      rw [to_poee, if_pos (by rw [htibs.1, htibs.2]; rfl), String.append_empty]
      rfl
    · exact ⟨WEEKDAYS.getD (weekday_index year day) "" ++ ", the "
        ++ ordinalize (day_of_season year day) ++ " day of "
        ++ SEASONS.getD (season_index year day) "" ++ " in the YOLD ",
        holiday_string year day, to_poee_format htibs (day_offset_lt hrange)⟩
  · decide

/-- Witness for C8 at `(2000, 59)` (the St. Tib's branch also carries the
YOLD). -/
theorem C8_discordian_year_witness :
    ((59 : Nat) < 365 + (if isLeap 2000 = true then 1 else 0)) ∧
    ((∃ pre post : String,
      to_poee 2000 59 = some (pre ++ toString ((2000 : Int) + 1166) ++ post)) ∧
      to_poee (-1166) 0 = some "Sweetmorn, the 1st day of Chaos in the YOLD 0") :=
  ⟨by decide, C8_discordian_year 2000 59 (by decide)⟩

/-- C9: the embedded interface takes no caller-supplied leap flag —
`to_poee` computes it from the date's own year — and that internal flag is
the standard Gregorian rule (divisible by 4 and not by 100, or divisible
by 400; Rust's truncating `%` agrees with divisibility for every sign).
The internal flag is what selects the St. Tib's Day output at day 59. -/
theorem C9_internal_leap (year : Int) :
    (isLeap year = true ↔ ((4 ∣ year ∧ ¬(100 ∣ year)) ∨ 400 ∣ year)) ∧
    (isLeap year = true →
      to_poee year 59 = some ("St. Tib's Day, in the YOLD " ++ toString (year + 1166))) ∧
    (isLeap year = false →
      to_poee year 59 = some ("Setting Orange, the 60th day of Chaos in the YOLD "
        ++ toString (year + 1166) ++ "")) := by
  refine ⟨?_, fun h => to_poee_tibs h, fun hl => ?_⟩
  · rw [isLeap]
    simp only [Bool.or_eq_true, Bool.and_eq_true, beq_iff_eq, bne_iff_ne, ne_eq]
    rw [Int.dvd_iff_tmod_eq_zero, Int.dvd_iff_tmod_eq_zero, Int.dvd_iff_tmod_eq_zero]
  · have h0 : day_offset year 59 = 59 := day_offset_of_le (le_refl 59)
    have htibs : ¬(isLeap year = true ∧ (59 : Nat) = ST_TIBS_DAY) := by
      rintro ⟨h1, -⟩
      rw [hl] at h1
      exact Bool.false_ne_true h1
    rw [to_poee_format htibs (by rw [h0]; omega)]
    simp only [weekday_index, season_index, day_of_season, holiday_string, h0]
    rfl

/-- C4: for every non-St.-Tib's date in range, the output's holyday
annotation is `"\nCelebrate {APOSTLES[season_index]}"` exactly when the
day of season is 5, `"\nCelebrate {HOLYDAYS[season_index]}"` exactly when
it is 50, and empty otherwise; and (counting over the non-leap year 2017)
within each season exactly one day triggers each kind, the other 71
carrying no annotation. -/
theorem C4_holyday (year : Int) (day : Nat)
    (hrange : day < 365 + (if isLeap year = true then 1 else 0))
    (htibs : ¬(isLeap year = true ∧ day = 59)) :
    to_poee year day = some (WEEKDAYS.getD (weekday_index year day) "" ++ ", the "
      ++ ordinalize (day_of_season year day) ++ " day of "
      ++ SEASONS.getD (season_index year day) "" ++ " in the YOLD "
      ++ toString (year + 1166) ++ holiday_string year day) ∧
    (day_of_season year day = 5 →
      holiday_string year day = "\nCelebrate " ++ APOSTLES.getD (season_index year day) "") ∧
    (day_of_season year day = 50 →
      holiday_string year day = "\nCelebrate " ++ HOLYDAYS.getD (season_index year day) "") ∧
    (day_of_season year day ≠ 5 → day_of_season year day ≠ 50 →
      holiday_string year day = "") ∧
    (∀ s, s < 5 →
      ((List.range 365).filter
        (fun d => decide (season_index 2017 d = s ∧ day_of_season 2017 d = 5))).length = 1 ∧
      ((List.range 365).filter
        (fun d => decide (season_index 2017 d = s ∧ day_of_season 2017 d = 50))).length = 1 ∧
      ((List.range 365).filter
        (fun d => decide (season_index 2017 d = s ∧ holiday 2017 d = some ""))).length = 71) := by
  refine ⟨to_poee_format htibs (day_offset_lt hrange), fun h5 => ?_, fun h50 => ?_,
    fun h5 h50 => ?_, fun s hs => ?_⟩
  · rw [holiday_string, if_pos (show day_of_season year day = APOSTLE_HOLYDAY from h5)]
  · rw [holiday_string, if_neg (show ¬day_of_season year day = APOSTLE_HOLYDAY by
      rw [h50]; decide),
      if_pos (show day_of_season year day = SEASON_HOLYDAY from h50)]
  · rw [holiday_string, if_neg (show ¬day_of_season year day = APOSTLE_HOLYDAY from h5),
      if_neg (show ¬day_of_season year day = SEASON_HOLYDAY from h50)]
  · interval_cases s <;> exact ⟨by decide, by decide, by decide⟩

/-- Witness for C4 at `(2017, 268)`, the Bureflux example. -/
theorem C4_holyday_witness :
    ((268 : Nat) < 365 + (if isLeap 2017 = true then 1 else 0)) ∧
    ¬(isLeap 2017 = true ∧ (268 : Nat) = 59) ∧
    (day_of_season 2017 268 = 50 →
      holiday_string 2017 268 = "\nCelebrate " ++ HOLYDAYS.getD (season_index 2017 268) "") ∧
    to_poee 2017 268 =
      some "Prickle-Prickle, the 50th day of Bureaucracy in the YOLD 3183\nCelebrate Bureflux" :=
  ⟨by decide, by decide, (C4_holyday 2017 268 (by decide) (by decide)).2.2.1, by decide⟩

/-- C6: in a non-leap year the season index is `day / 73` — five
consecutive 73-day runs in the fixed order of `SEASONS`, each season
produced exactly 73 times over days 0–364 with no gaps or overlaps — and
the weekday index cycles as `day % 5`. -/
theorem C6_partition (year : Int) (h : isLeap year = false) :
    (∀ d, d < 365 → season_index year d = d / 73 ∧ weekday_index year d = d % 5) ∧
    (∀ s, s < 5 →
      ((List.range 365).filter (fun d => decide (season_index year d = s))).length = 73) ∧
    SEASONS = ["Chaos", "Discord", "Confusion", "Bureaucracy", "The Aftermath"] ∧
    WEEKDAYS = ["Sweetmorn", "Boomtime", "Pungenday", "Prickle-Prickle", "Setting Orange"] := by
  have hoffd : ∀ d : Nat, day_offset year d = d := day_offset_of_not_leap h
  refine ⟨fun d _ => ⟨by rw [season_index, hoffd d]; rfl,
    by rw [weekday_index, hoffd d]; rfl⟩, fun s hs => ?_, rfl, rfl⟩
  have hsame : ((List.range 365).filter (fun d => decide (season_index year d = s)))
      = ((List.range 365).filter (fun d => decide (d / 73 = s))) := by
    apply List.filter_congr
    intro d _
    rw [season_index, hoffd d]
    rfl
  rw [hsame]
  interval_cases s <;> decide

/-- Witness for C6 at the non-leap year 2017. -/
theorem C6_partition_witness :
    isLeap 2017 = false ∧
    (season_index 2017 268 = 268 / 73 ∧ weekday_index 2017 268 = 268 % 5) ∧
    ((List.range 365).filter (fun d => decide (season_index 2017 d = 3))).length = 73 ∧
    SEASONS = ["Chaos", "Discord", "Confusion", "Bureaucracy", "The Aftermath"] :=
  ⟨by decide, (C6_partition 2017 (by decide)).1 268 (by decide),
    (C6_partition 2017 (by decide)).2.1 3 (by decide),
    (C6_partition 2017 (by decide)).2.2.1⟩

/-- C5: `ordinalize n` renders `n` in decimal and appends the suffix
chosen from the string form — "st" when it ends in the digit 1 but not in
"11", "nd" for 2 but not "12", "rd" for 3 but not "13", otherwise "th" —
and in particular produces 1st, 2nd, 3rd, 4th, 11th, 12th, 13th, 21st and
73rd, with the teens exception. -/
theorem C5_ordinal_suffix (n : Nat) :
    ordinalize n = toString n ++
      (if ['1'] <:+ (toString n).data ∧ ¬(['1', '1'] <:+ (toString n).data) then "st"
       else if ['2'] <:+ (toString n).data ∧ ¬(['1', '2'] <:+ (toString n).data) then "nd"
       else if ['3'] <:+ (toString n).data ∧ ¬(['1', '3'] <:+ (toString n).data) then "rd"
       else "th") ∧
    ordinalize 1 = "1st" ∧ ordinalize 2 = "2nd" ∧ ordinalize 3 = "3rd" ∧
    ordinalize 4 = "4th" ∧ ordinalize 11 = "11th" ∧ ordinalize 12 = "12th" ∧
    ordinalize 13 = "13th" ∧ ordinalize 21 = "21st" ∧ ordinalize 73 = "73rd" := by
  refine ⟨?_, by decide, by decide, by decide, by decide, by decide, by decide, by decide,
    by decide, by decide⟩
  have d1 : ("1" : String).data = ['1'] := rfl
  have d11 : ("11" : String).data = ['1', '1'] := rfl
  have d2 : ("2" : String).data = ['2'] := rfl
  have d12 : ("12" : String).data = ['1', '2'] := rfl
  have d3 : ("3" : String).data = ['3'] := rfl
  have d13 : ("13" : String).data = ['1', '3'] := rfl
  simp only [ordinalize]
  refine congrArg (fun t => toString n ++ t) ?_
  refine if_congr ?_ rfl (if_congr ?_ rfl (if_congr ?_ rfl rfl)) <;>
    simp only [ends_with, Bool.and_eq_true, Bool.not_eq_true', decide_eq_true_eq,
      decide_eq_false_iff_not, d1, d11, d2, d12, d3, d13]

/-- C10: the string-based suffix selection of `ordinalize` is
extensionally the numeric-modulo rule: the suffix is "st"/"nd"/"rd" when
`n % 10` is 1/2/3 and `n % 100` is not 11/12/13, and "th" otherwise. -/
theorem C10_ordinalize_mod (n : Nat) : ordinalize n = ordinalize_by_mod n := by
  have e1 : ends_with (toString n) "1" = true ↔ n % 10 = 1 :=
    ends_with_digit n 1 (by omega)
  have e2 : ends_with (toString n) "2" = true ↔ n % 10 = 2 :=
    ends_with_digit n 2 (by omega)
  have e3 : ends_with (toString n) "3" = true ↔ n % 10 = 3 :=
    ends_with_digit n 3 (by omega)
  have e11 : ends_with (toString n) "11" = true ↔ 10 ≤ n ∧ n % 100 = 11 := by
    simpa using ends_with_two_digits n 1 1 (by omega) (by omega)
  have e12 : ends_with (toString n) "12" = true ↔ 10 ≤ n ∧ n % 100 = 12 := by
    simpa using ends_with_two_digits n 1 2 (by omega) (by omega)
  have e13 : ends_with (toString n) "13" = true ↔ 10 ≤ n ∧ n % 100 = 13 := by
    simpa using ends_with_two_digits n 1 3 (by omega) (by omega)
  simp only [ordinalize, ordinalize_by_mod]
  refine congrArg (fun t => toString n ++ t) ?_
  refine if_congr ?_ rfl (if_congr ?_ rfl (if_congr ?_ rfl rfl)) <;>
    simp only [Bool.and_eq_true, Bool.not_eq_true', Bool.eq_false_iff, ne_eq, e1, e11,
      e2, e12, e3, e13] <;>
    omega

